import Mathlib

/-!
Shallow embedding of `gemini_review.py`, a script that diffs two git
branches, asks a generative-text API for a code review, and persists the
transcript under `review/<timestamp>/`.  External effects (subprocess
stdout, the filesystem, the API, wall-clock time) are modelled as an
explicit environment `Env`; the run is a pure function `main_run : Env →
Trace` recording git calls, API attempts, sleeps, filesystem events and
console output.
-/

namespace GeminiReview

/-- Outcome of one call to `try_call_gemini_api`: either a response text, or
an `APIError`.  The error's `code` attribute is modelled as `Option Nat`
(`none` models an error object lacking the `code` attribute, mirroring the
`hasattr(e, "code")` check). -/
inductive APIOutcome where
  | success (text : String)
  | error (code : Option Nat)
deriving DecidableEq

/-- The backoff table `retry_time = [3, 30, 120, 300, 600]` from
`call_gemini_api`. -/
def retry_time : List Nat := [3, 30, 120, 300, 600]

/-- Observable result of the retry loop in `call_gemini_api`: the returned
value (`none` models Python's `None`), the sleep durations performed in
order, the number of calls made to `try_call_gemini_api`, and the lines
printed to stdout. -/
structure CallResult where
  result : Option String
  sleeps : List Nat
  attempts : Nat
  stdoutLines : List String
deriving DecidableEq

/-- The message printed before sleeping on a 503 error. -/
def overload_msg (w : Nat) : String :=
  "過負荷によりリクエストが拒否されました\nリトライします 待機時間: " ++ toString w ++ "s"

/-- The message printed on a 429 error. -/
def rate_limit_msg : String := "レート制限に達しています"

/-- The `while True` loop of `call_gemini_api`.  `i` is the Python counter
(0 at loop entry); `api n` gives the outcome of the (n+1)-th call to
`try_call_gemini_api`.  The loop body mirrors the source line by line:
on `APIError`, `i` is incremented first; an error without a `code`
attribute breaks; `i > len(retry_time) - 1` breaks; code 429 prints and
breaks; code 503 prints, sleeps `retry_time[i]` (the *post-increment* `i`)
and continues; any other code falls through every `break` and the loop
repeats immediately.  The loop body runs at most `retry_time.length`
times because `i` grows by 1 each iteration and `i > retry_time.length - 1`
breaks, so `fuel := retry_time.length` makes the fuel-0 case unreachable. -/
def callLoop (api : Nat → APIOutcome) : Nat → Nat → CallResult
  | 0, _ => ⟨none, [], 0, []⟩
  | fuel + 1, i =>
    match api i with
    | .success t => ⟨some t, [], 1, []⟩
    | .error none => ⟨none, [], 1, []⟩
    | .error (some c) =>
      if retry_time.length - 1 < i + 1 then ⟨none, [], 1, []⟩
      else if c = 429 then ⟨none, [], 1, [rate_limit_msg]⟩
      else if c = 503 then
        let w := retry_time.getD (i + 1) 0
        let rest := callLoop api fuel (i + 1)
        ⟨rest.result, w :: rest.sleeps, rest.attempts + 1, overload_msg w :: rest.stdoutLines⟩
      else
        let rest := callLoop api fuel (i + 1)
        ⟨rest.result, rest.sleeps, rest.attempts + 1, rest.stdoutLines⟩

/-- Outcome of `call_gemini_api` as a whole: `sys.exit(1)` when the
`GEMINI_API_KEY` environment variable is absent, otherwise the loop's
result. -/
inductive CallOutcome where
  | exited (stderrLines : List String)
  | finished (r : CallResult)
deriving DecidableEq

/-- Diagnostic printed when `GEMINI_API_KEY` is unset. -/
def key_missing_msg : String := "ERROR: 環境変数 GEMINI_API_KEY が設定されていません"

/-- `call_gemini_api(model, prompt)`: check the credential once, then run
the retry loop starting at `i = 0`. -/
def call_gemini_api (apiKey : Option String) (api : Nat → APIOutcome) : CallOutcome :=
  match apiKey with
  | none => .exited [key_missing_msg]
  | some _ => .finished (callLoop api retry_time.length 0)

/-- The JSON `prompt` field: either a single string or a list of strings. -/
inductive PromptVal where
  | str (s : String)
  | list (l : List String)
deriving DecidableEq

/-- The decoded JSON object read from `review_config.json` (the fields the
script reads). -/
structure RawConfig where
  project_path : Option String
  base_branch : String
  model : String
  prompt : PromptVal
deriving DecidableEq

/-- The configuration after `load_config`'s prompt normalisation. -/
structure Config where
  project_path : Option String
  base_branch : String
  model : String
  prompt : String
deriving DecidableEq

/-- State of the config file on disk: absent, present but not valid JSON,
or present with a decoded object. -/
inductive ConfigFile where
  | missing
  | invalidJson
  | valid (c : RawConfig)
deriving DecidableEq

/-- Outcome of `load_config`: a config, `sys.exit(1)` after a stderr
diagnostic, or an exception that propagates out unhandled. -/
inductive LoadResult where
  | ok (c : Config)
  | exit1 (stderrLines : List String)
  | uncaught
deriving DecidableEq

/-- Diagnostic printed when the config file is missing. -/
def config_missing_msg (path : String) : String :=
  "ERROR: 設定ファイル " ++ path ++ " が見つかりません"

/-- `load_config`: `open` raises `FileNotFoundError` when the file is
missing, which is the only exception the `except` clause catches (it
prints to stderr and exits 1); `json.load` on malformed content raises
`json.JSONDecodeError`, which is not caught and propagates.  On success,
a `prompt` given as a list is joined with newlines. -/
def load_config (file : ConfigFile) : LoadResult :=
  match file with
  | .missing => .exit1 [config_missing_msg "review_config.json"]
  | .invalidJson => .uncaught
  | .valid c =>
    .ok { project_path := c.project_path, base_branch := c.base_branch,
          model := c.model,
          prompt :=
            match c.prompt with
            | .str s => s
            | .list l => String.intercalate "\n" l }

/-- The ambient environment of one run: config file state, whether
`<project>/.git` exists, the raw stdout of each git subprocess, path
resolution, the `GEMINI_API_KEY` variable, the API behaviour per attempt,
and the formatted `datetime.now()` timestamp. -/
structure Env where
  configFile : ConfigFile
  gitDirExists : Bool
  branchRaw : String
  revParseRaw : String → String
  diffRaw : String → String → String
  resolvePath : String → String
  apiKey : Option String
  api : Nat → APIOutcome
  timestamp : String

/-- Python's `str.strip()`: remove leading and trailing whitespace. -/
def pyStrip (s : String) : String :=
  ⟨(((s.data.dropWhile Char.isWhitespace).reverse).dropWhile Char.isWhitespace).reverse⟩

/-- Python's slice `s[n:]`: drop the first `n` characters. -/
def pyDrop (n : Nat) (s : String) : String := ⟨s.data.drop n⟩

/-- Python's slice `s[:n]`: keep the first `n` characters. -/
def pyTake (n : Nat) (s : String) : String := ⟨s.data.take n⟩

/-- `runCmd` returns `result.stdout.strip()` (`run_cmd` in the source; that
name is a command keyword here). -/
def runCmd (rawStdout : String) : String := pyStrip rawStdout

/-- `get_current_branch`: stripped stdout of `git branch --contains`. -/
def get_current_branch (env : Env) : String := runCmd env.branchRaw

/-- `get_latest_commit(branch)`: stripped stdout of `git rev-parse branch`. -/
def get_latest_commit (env : Env) (branch : String) : String :=
  runCmd (env.revParseRaw branch)

/-- `get_diff(from, to)`: stripped stdout of `git diff --minimal from..to`. -/
def get_diff (env : Env) (fromCommit toCommit : String) : String :=
  runCmd (env.diffRaw fromCommit toCommit)

/-- `current_branch = get_current_branch(project_dir)[2:]`. -/
def current_branch_of (env : Env) : String := pyDrop 2 (get_current_branch env)

/-- `base_commit = get_latest_commit(base_branch, project_dir)`. -/
def base_commit_of (env : Env) (cfg : Config) : String :=
  get_latest_commit env cfg.base_branch

/-- `head_commit = get_latest_commit(current_branch, project_dir)`. -/
def head_commit_of (env : Env) : String :=
  get_latest_commit env (current_branch_of env)

/-- `diff_text = get_diff(base_commit, head_commit, project_dir)`. -/
def diff_of (env : Env) (cfg : Config) : String :=
  get_diff env (base_commit_of env cfg) (head_commit_of env)

/-- A filesystem effect performed by the run: directory creation or a file
write with its full content. -/
inductive FsEvent where
  | mkdir (path : String)
  | write (path : String) (content : String)
deriving DecidableEq

/-- How the process ends: `main` returns (exit status 0), `sys.exit(1)`,
or an unhandled exception. -/
inductive Outcome where
  | normal
  | exit1
  | uncaught
deriving DecidableEq

/-- Observable trace of one run of `main`. -/
structure Trace where
  gitCalls : Nat
  apiAttempts : Nat
  sleeps : List Nat
  fs : List FsEvent
  stdoutLines : List String
  stderrLines : List String
  outcome : Outcome
deriving DecidableEq

/-- The `meta_info` string built in `main`, field for field. -/
def meta_info (timestamp resolvedPath base_branch base_commit current_branch
    head_commit model prompt : String) : String :=
  "date: " ++ timestamp ++ "\n" ++
  "project path: " ++ resolvedPath ++ "\n" ++
  "base branch: " ++ base_branch ++ "\n" ++
  "base commit: " ++ base_commit ++ "\n" ++
  "review target branch: " ++ current_branch ++ "\n" ++
  "review target commit: " ++ head_commit ++ "\n" ++
  "model: " ++ model ++ "\n" ++
  "----\n" ++
  "prompt:\n" ++
  prompt ++ "\n"

/-- `main`, as a pure function from the environment to the run's trace.
Stage order follows the source: load config, check `.git`, resolve
branches and commits (3 git calls), short-circuit on equal commits,
compute the diff (4th git call), short-circuit on an empty diff, call the
API, and on a non-`None` result create `review/<timestamp>/` and write
`diff.txt`, `meta.txt`, `review.md` in that order. -/
def main_run (env : Env) : Trace :=
  match load_config env.configFile with
  | .exit1 errs => ⟨0, 0, [], [], [], errs, .exit1⟩
  | .uncaught => ⟨0, 0, [], [], [], [], .uncaught⟩
  | .ok config =>
    let project_path := config.project_path.getD "."
    if env.gitDirExists = false then
      ⟨0, 0, [], [], [],
       ["ERROR: 指定されたパスに .git が見つかりません: " ++ project_path], .exit1⟩
    else
      let current_branch := current_branch_of env
      let base_commit := base_commit_of env config
      let head_commit := head_commit_of env
      let headerLines :=
        ["レビュー対象プロジェクト: " ++ project_path,
         "ベースブランチ: " ++ config.base_branch,
         "使用モデル: " ++ config.model,
         "現在のブランチ: " ++ current_branch,
         config.base_branch ++ " の最新コミット: " ++ base_commit,
         current_branch ++ " の最新コミット: " ++ head_commit]
      if base_commit = head_commit then
        ⟨3, 0, [], [], headerLines ++ ["差分なし（レビュー対象なし）"], [], .normal⟩
      else
        let diff_text := diff_of env config
        if pyStrip diff_text = "" then
          ⟨4, 0, [], [], headerLines ++ ["差分が空です"], [], .normal⟩
        else
          let asking := headerLines ++
            ["Geminiにレビューを依頼しています...(数分かかる場合があります)"]
          match call_gemini_api env.apiKey env.api with
          | .exited errs => ⟨4, 0, [], [], asking, errs, .exit1⟩
          | .finished cr =>
            match cr.result with
            | none =>
              ⟨4, cr.attempts, cr.sleeps, [],
               asking ++ cr.stdoutLines ++ ["レビューに失敗しました"], [], .normal⟩
            | some review_result =>
              let output_dir := "review/" ++ env.timestamp
              let diff_path := output_dir ++ "/diff.txt"
              let review_path := output_dir ++ "/review.md"
              let meta_path := output_dir ++ "/meta.txt"
              let meta := meta_info env.timestamp (env.resolvePath project_path)
                config.base_branch base_commit current_branch head_commit
                config.model config.prompt
              ⟨4, cr.attempts, cr.sleeps,
               [.mkdir output_dir, .write diff_path diff_text,
                .write meta_path meta, .write review_path review_result],
               asking ++ cr.stdoutLines ++
                 ["差分を " ++ diff_path ++ " に保存しました",
                  "比較情報を " ++ meta_path ++ " に保存しました",
                  "レビュー結果を " ++ review_path ++ " に保存しました",
                  "\n---- コードレビュー結果(抜粋) ----\n",
                  pyTake 2000 review_result],
               [], .normal⟩

/-- API behaviour: 503 on the first three attempts, then success. -/
def api_overload_three_then_success : Nat → APIOutcome := fun n =>
  if n < 3 then .error (some 503) else .success "REVIEW TEXT"

/-- API behaviour: 503 on every attempt. -/
def api_always_overloaded : Nat → APIOutcome := fun _ => .error (some 503)

/-- API behaviour: an error with status code 500 on every attempt. -/
def api_error_500 : Nat → APIOutcome := fun _ => .error (some 500)

/-- API behaviour: 429 on every attempt (in particular on the first). -/
def api_rate_limited : Nat → APIOutcome := fun _ => .error (some 429)

/-- API behaviour: immediate success. -/
def api_immediate_success : Nat → APIOutcome := fun _ => .success "R"

/-- A concrete well-formed config file content. -/
def sample_raw_config : RawConfig :=
  { project_path := some ".", base_branch := "main", model := "gemini-pro",
    prompt := .str "P" }

/-- A concrete environment in which every stage succeeds on the first try. -/
def base_env : Env :=
  { configFile := .valid sample_raw_config
    gitDirExists := true
    branchRaw := "* feature\n"
    revParseRaw := fun b => if b = "main" then "aaaa" else "bbbb"
    diffRaw := fun _ _ => "diff --git a b\n"
    resolvePath := fun _ => "/abs/proj"
    apiKey := some "KEY"
    api := api_immediate_success
    timestamp := "20260101_120000" }

/-- `base_env` with the API overloaded on the first three attempts. -/
def env_overload3 : Env := { base_env with api := api_overload_three_then_success }

/-- `base_env` with the API rate-limited on every attempt. -/
def env_rate_limited : Env := { base_env with api := api_rate_limited }

/-- `base_env` in which both branches resolve to the same commit. -/
def env_equal_commits : Env := { base_env with revParseRaw := fun _ => "cccc" }

/-- `base_env` in which the computed diff is whitespace-only. -/
def env_blank_diff : Env := { base_env with diffRaw := fun _ _ => " \n\t " }

/-- `base_env` with the config file absent. -/
def env_no_config : Env := { base_env with configFile := .missing }

/-- `base_env` with a config file that is not valid JSON. -/
def env_bad_json : Env := { base_env with configFile := .invalidJson }

/-- `base_env` with the API always overloaded. -/
def env_always_overloaded : Env := { base_env with api := api_always_overloaded }

/-- `base_env` with the API failing with status code 500 on every attempt. -/
def env_error_500 : Env := { base_env with api := api_error_500 }

/-- A config whose `prompt` field is the two-element list from the spec. -/
def raw_config_list_prompt : RawConfig :=
  { sample_raw_config with prompt := .list ["line1", "line2"] }

/-- `sample_raw_config` after loading (its prompt is already a string). -/
def sample_config : Config :=
  { project_path := some ".", base_branch := "main", model := "gemini-pro",
    prompt := "P" }

end GeminiReview

namespace GeminiReview

/-- Each loop iteration makes exactly one API call, so the number of
attempts is bounded by the fuel. -/
theorem callLoop_attempts_le_fuel (api : Nat → APIOutcome) :
    ∀ fuel i, (callLoop api fuel i).attempts ≤ fuel := by
  intro fuel
  induction fuel with
  | zero => intro i; simp [callLoop]
  | succ n ih =>
    intro i
    simp only [callLoop]
    rcases api i with t | code
    · simp
    · rcases code with _ | c
      · simp
      · dsimp only
        split
        · simp
        · split
          · simp
          · split
            · simpa using Nat.succ_le_succ (ih (i + 1))
            · simpa using Nat.succ_le_succ (ih (i + 1))

/-- With any positive fuel the loop makes at least one API call. -/
theorem callLoop_attempts_pos (api : Nat → APIOutcome) (fuel i : Nat) :
    1 ≤ (callLoop api (fuel + 1) i).attempts := by
  simp only [callLoop]
  rcases api i with t | code
  · simp
  · rcases code with _ | c
    · simp
    · dsimp only
      split
      · simp
      · split
        · simp
        · split <;> simp

/-- If every attempt fails with a 503 error, the loop never returns a
response. -/
theorem callLoop_all_503_result_none (api : Nat → APIOutcome)
    (h : ∀ n, api n = .error (some 503)) :
    ∀ fuel i, (callLoop api fuel i).result = none := by
  intro fuel
  induction fuel with
  | zero => intro i; simp [callLoop]
  | succ n ih =>
    intro i
    simp only [callLoop, h i]
    split
    · rfl
    · simp [ih (i + 1)]

/-- A 429 error on the first attempt ends the loop at once: one attempt,
no sleep, no result, one console message. -/
theorem callLoop_429_first (api : Nat → APIOutcome)
    (h : api 0 = .error (some 429)) :
    callLoop api retry_time.length 0 = ⟨none, [], 1, [rate_limit_msg]⟩ := by
  simp [callLoop, h, retry_time]

/-- Claim C1: the claim says the first three retries sleep 3s, 30s, 120s
(the schedule indexed from its first entry).  On the code, with the API
overloaded on exactly the first three attempts and succeeding on the 4th,
exactly 3 sleeps occur but their durations are 30s, 120s, 300s: the loop
increments `i` before indexing `retry_time`, so the table's first entry
(3s) is never used.  The 4th call's result is persisted as claimed. -/
theorem C1_retry_schedule_divergence :
    (main_run env_overload3).sleeps = [30, 120, 300] ∧
    (main_run env_overload3).sleeps ≠ [3, 30, 120] ∧
    (main_run env_overload3).fs =
      [.mkdir "review/20260101_120000",
       .write "review/20260101_120000/diff.txt" "diff --git a b",
       .write "review/20260101_120000/meta.txt"
         (meta_info "20260101_120000" "/abs/proj" "main" "aaaa" "feature"
           "bbbb" "gemini-pro" "P"),
       .write "review/20260101_120000/review.md" "REVIEW TEXT"] :=
  ⟨rfl, by decide, rfl⟩

/-- Claim C2: the claim says an error with a status code other than 429 and
503 stops the requester immediately, with no further attempt.  On the code,
such an error falls through every `break` and the loop retries at once: with
a 500 error on every attempt the loop makes 5 API calls (not 1) before
returning `None`, with no sleeps. -/
theorem C2_other_code_retries_immediately :
    callLoop api_error_500 retry_time.length 0 =
      ⟨none, [], 5, []⟩ ∧
    (main_run env_error_500).apiAttempts = 5 ∧
    (main_run env_error_500).sleeps = [] ∧
    (main_run env_error_500).fs = [] :=
  ⟨rfl, rfl, rfl, rfl⟩

/-- Claim C3: when every attempt fails with a 503 error the requester makes
at most 6 API attempts and returns absent.  (The code in fact stops after 5
attempts: the budget check `i > len(retry_time) - 1` fires once `i`
reaches 5.) -/
theorem C3_retry_budget (api : Nat → APIOutcome)
    (h : ∀ n, api n = .error (some 503)) :
    (callLoop api retry_time.length 0).attempts ≤ 6 ∧
    (callLoop api retry_time.length 0).result = none :=
  ⟨Nat.le_trans (callLoop_attempts_le_fuel api retry_time.length 0) (by decide),
   callLoop_all_503_result_none api h retry_time.length 0⟩

/-- Witness for C3 at an API that is overloaded on every attempt. -/
theorem C3_retry_budget_witness :
    (callLoop api_always_overloaded retry_time.length 0).attempts ≤ 6 ∧
    (callLoop api_always_overloaded retry_time.length 0).result = none :=
  C3_retry_budget api_always_overloaded (fun _ => rfl)

/-- Claim C9: a `prompt` field given as a list of strings is joined with
newlines into the effective template; in particular `["line1", "line2"]`
yields `"line1\nline2"`; a string `prompt` is used unchanged. -/
theorem C9_prompt_normalization (pp : Option String) (bb mm s : String)
    (l : List String) :
    load_config (.valid ⟨pp, bb, mm, .list l⟩) =
      .ok ⟨pp, bb, mm, String.intercalate "\n" l⟩ ∧
    load_config (.valid ⟨pp, bb, mm, .str s⟩) = .ok ⟨pp, bb, mm, s⟩ ∧
    load_config (.valid raw_config_list_prompt) =
      .ok ⟨some ".", "main", "gemini-pro", "line1\nline2"⟩ :=
  ⟨rfl, rfl, rfl⟩

/-- Claim C10: a config file that exists but holds invalid JSON makes
`load_config` raise an unhandled exception (the `except` clause catches
only `FileNotFoundError`); only the missing-file case gets the
diagnostic-and-exit(1) path. -/
theorem C10_invalid_json_uncaught :
    load_config .invalidJson = .uncaught ∧
    load_config .missing = .exit1 [config_missing_msg "review_config.json"] ∧
    (main_run env_bad_json).outcome = .uncaught ∧
    (main_run env_no_config).outcome = .exit1 :=
  ⟨rfl, rfl, rfl, rfl⟩

/-- Claim C8: when the config file is missing, the run exits with status 1
after a stderr diagnostic, having performed no git call and no API call. -/
theorem C8_missing_config (env : Env) (h : env.configFile = .missing) :
    (main_run env).outcome = .exit1 ∧
    (main_run env).stderrLines = [config_missing_msg "review_config.json"] ∧
    (main_run env).gitCalls = 0 ∧ (main_run env).apiAttempts = 0 := by
  simp [main_run, load_config, h]

/-- Claim C4: a rate-limit (429) error on the first API attempt ends the
requester at once — no sleep, exactly one attempt, `None` returned — and
the run creates no artifact directory. -/
theorem C4_rate_limit_stops (env : Env) (h : env.api 0 = .error (some 429)) :
    (callLoop env.api retry_time.length 0).result = none ∧
    (callLoop env.api retry_time.length 0).attempts = 1 ∧
    (main_run env).sleeps = [] ∧
    (main_run env).apiAttempts ≤ 1 ∧
    (main_run env).fs = [] := by
  have hcall : callLoop env.api retry_time.length 0 =
      ⟨none, [], 1, [rate_limit_msg]⟩ := callLoop_429_first env.api h
  refine ⟨by rw [hcall], by rw [hcall], ?_⟩
  rcases hcfg : load_config env.configFile with c | errs | _ <;>
    simp only [main_run, hcfg]
  · split
    · simp
    · split
      · simp
      · split
        · simp
        · rcases hk : env.apiKey with _ | k
          · simp [call_gemini_api, hk]
          · simp [call_gemini_api, hk, hcall]
  · simp
  · simp

/-- Witness for C4 at a concrete environment with a rate-limited API. -/
theorem C4_rate_limit_stops_witness :
    (callLoop env_rate_limited.api retry_time.length 0).result = none ∧
    (callLoop env_rate_limited.api retry_time.length 0).attempts = 1 ∧
    (main_run env_rate_limited).sleeps = [] ∧
    (main_run env_rate_limited).apiAttempts ≤ 1 ∧
    (main_run env_rate_limited).fs = [] :=
  C4_rate_limit_stops env_rate_limited rfl

/-- Claim C6: if the two branches resolve to the same commit, or the
computed diff text is empty or whitespace-only, then no API call is made,
no artifact is created, and the run returns normally after printing an
informational message. -/
theorem C6_no_diff_short_circuit (env : Env) (cfg : Config)
    (hcfg : load_config env.configFile = .ok cfg)
    (hgit : env.gitDirExists = true)
    (h : base_commit_of env cfg = head_commit_of env ∨
         pyStrip (diff_of env cfg) = "") :
    (main_run env).apiAttempts = 0 ∧ (main_run env).fs = [] ∧
    (main_run env).outcome = .normal ∧
    ("差分なし（レビュー対象なし）" ∈ (main_run env).stdoutLines ∨
     "差分が空です" ∈ (main_run env).stdoutLines) := by
  simp only [main_run, hcfg]
  by_cases hbh : base_commit_of env cfg = head_commit_of env
  · simp [hgit, hbh]
  · have hd : pyStrip (diff_of env cfg) = "" := h.resolve_left hbh
    simp [hgit, hbh, hd]

/-- Witness for C6 at a concrete environment whose branches resolve to the
same commit. -/
theorem C6_no_diff_short_circuit_witness :
    (main_run env_equal_commits).apiAttempts = 0 ∧
    (main_run env_equal_commits).fs = [] ∧
    (main_run env_equal_commits).outcome = .normal ∧
    ("差分なし（レビュー対象なし）" ∈ (main_run env_equal_commits).stdoutLines ∨
     "差分が空です" ∈ (main_run env_equal_commits).stdoutLines) :=
  C6_no_diff_short_circuit env_equal_commits sample_config rfl rfl (Or.inl rfl)

/-- Claim C5: artifact all-or-nothing invariant.  In every run, either no
filesystem effect happens at all, or — only when a non-empty diff was
obtained, the API was attempted at least once, and a non-absent result came
back — the directory is created and all three files are written into it,
with nothing in between. -/
theorem C5_artifact_all_or_nothing (env : Env) :
    (main_run env).fs = [] ∨
    (1 ≤ (main_run env).apiAttempts ∧
     ∃ d m r cr, pyStrip d ≠ "" ∧
       call_gemini_api env.apiKey env.api = .finished cr ∧
       cr.result = some r ∧
       (main_run env).fs =
         [.mkdir ("review/" ++ env.timestamp),
          .write ("review/" ++ env.timestamp ++ "/diff.txt") d,
          .write ("review/" ++ env.timestamp ++ "/meta.txt") m,
          .write ("review/" ++ env.timestamp ++ "/review.md") r]) := by
  rcases hcfg : load_config env.configFile with c | errs | _ <;>
    simp only [main_run, hcfg]
  · split
    · left; rfl
    · split
      · left; rfl
      · split
        · left; rfl
        · split
          · left; rfl
          · next cr heq =>
            split
            · left; rfl
            · next r hres =>
              right
              refine ⟨?_, diff_of env c, _, r, cr, ?_, heq, hres, rfl⟩
              · show 1 ≤ cr.attempts
                rcases hk : env.apiKey with _ | k
                · rw [hk] at heq; exact absurd heq (by simp [call_gemini_api])
                · rw [hk] at heq
                  simp only [call_gemini_api, CallOutcome.finished.injEq] at heq
                  rw [← heq]
                  exact callLoop_attempts_pos env.api 4 0
              · next hdiff _ _ => exact hdiff
  · left; trivial
  · left; trivial

/-- Claim C7: round-trip of the persisted artifact.  Whenever the run
persists, `diff.txt` holds exactly the obtained diff text, `review.md`
holds exactly the API's response text, and `meta.txt` holds the base and
head commit hashes and branch names of the run followed by a separator
line and the literal prompt template. -/
theorem C7_round_trip (env : Env) (cfg : Config) (k R : String)
    (hcfg : load_config env.configFile = .ok cfg)
    (hgit : env.gitDirExists = true)
    (hne : base_commit_of env cfg ≠ head_commit_of env)
    (hdiff : pyStrip (diff_of env cfg) ≠ "")
    (hkey : env.apiKey = some k)
    (hres : (callLoop env.api retry_time.length 0).result = some R) :
    (main_run env).fs =
      [.mkdir ("review/" ++ env.timestamp),
       .write ("review/" ++ env.timestamp ++ "/diff.txt") (diff_of env cfg),
       .write ("review/" ++ env.timestamp ++ "/meta.txt")
         (meta_info env.timestamp (env.resolvePath (cfg.project_path.getD "."))
           cfg.base_branch (base_commit_of env cfg) (current_branch_of env)
           (head_commit_of env) cfg.model cfg.prompt),
       .write ("review/" ++ env.timestamp ++ "/review.md") R] := by
  simp only [main_run, hcfg]
  simp [hgit, hne, hdiff, call_gemini_api, hkey, hres]

/-- Witness for C7 at a concrete environment whose API succeeds at once. -/
theorem C7_round_trip_witness :
    (main_run base_env).fs =
      [.mkdir ("review/" ++ base_env.timestamp),
       .write ("review/" ++ base_env.timestamp ++ "/diff.txt")
         (diff_of base_env sample_config),
       .write ("review/" ++ base_env.timestamp ++ "/meta.txt")
         (meta_info base_env.timestamp
           (base_env.resolvePath (sample_config.project_path.getD "."))
           sample_config.base_branch (base_commit_of base_env sample_config)
           (current_branch_of base_env) (head_commit_of base_env)
           sample_config.model sample_config.prompt),
       .write ("review/" ++ base_env.timestamp ++ "/review.md") "R"] :=
  C7_round_trip base_env sample_config "KEY" "R" rfl rfl (by decide) (by decide)
    rfl rfl

/-- Witness for C8 at a concrete environment with no config file. -/
theorem C8_missing_config_witness :
    (main_run env_no_config).outcome = .exit1 ∧
    (main_run env_no_config).stderrLines =
      [config_missing_msg "review_config.json"] ∧
    (main_run env_no_config).gitCalls = 0 ∧
    (main_run env_no_config).apiAttempts = 0 :=
  C8_missing_config env_no_config rfl

end GeminiReview
